import Mathlib

/-!
Verification development for the JHS-EncoderReader gateway.

Shallow embedding of the core logic of the repository in Lean 4:
the Modbus CRC16 engine, the register map, the Modbus client retry
loop, the encoder lap counter, the monitor-task coordinator, the
OSC reply-port handling, and the connection supervisor.  Python
integers are modelled as Nat (with explicit masks where the code
masks), byte strings as List Nat with entries below 256, exceptions
as Except, and wall-clock instants as rationals.
-/

namespace Crc

/-- One bit step of the CRC-16/MODBUS loop from calculate_crc
(crc.py lines 24-28): if the LSB is set, shift right and XOR with
0xA001, else shift right only. -/
def crcBitStep (crc : Nat) : Nat :=
  if crc &&& 1 = 1 then (crc >>> 1) ^^^ 0xA001 else crc >>> 1

/-- One byte step of calculate_crc (crc.py lines 21-28): XOR the
byte into the register, then run 8 bit steps. -/
def crcByteStep (crc b : Nat) : Nat :=
  crcBitStep^[8] (crc ^^^ b)

/-- calculate_crc with an arbitrary initial register, folding the
byte step over the data. -/
def crcFrom (init : Nat) (data : List Nat) : Nat :=
  data.foldl crcByteStep init

/-- calculate_crc from crc.py lines 8-31: initial register 0xFFFF,
then the byte loop. -/
def calculate_crc (data : List Nat) : Nat :=
  crcFrom 0xFFFF data

/-- append_crc from crc.py lines 34-46: append the two CRC bytes,
low byte first. -/
def append_crc (data : List Nat) : List Nat :=
  data ++ [calculate_crc data &&& 0xFF, (calculate_crc data >>> 8) &&& 0xFF]

/-- verify_crc from crc.py lines 49-69: inputs shorter than 2 bytes
fail; otherwise recompute the CRC over all but the last two bytes
and compare with the trailing two bytes read low byte first. -/
def verify_crc (data : List Nat) : Bool :=
  if data.length < 2 then false
  else
    calculate_crc (data.take (data.length - 2)) ==
      (data.getD (data.length - 1) 0) <<< 8 ||| (data.getD (data.length - 2) 0)

/-- Corrupt one bit: replace the byte at index k by the same byte
with bit j flipped. -/
def flip_bit (data : List Nat) (k j : Nat) : List Nat :=
  data.set k ((data.getD k 0) ^^^ 2 ^ j)

end Crc

namespace Registers

/-- FunctionCode.READ_HOLDING_REGISTERS from registers.py line 11. -/
def READ_HOLDING_REGISTERS : Nat := 0x03

/-- FunctionCode.WRITE_SINGLE_REGISTER from registers.py line 12. -/
def WRITE_SINGLE_REGISTER : Nat := 0x06

/-- RegisterDefinition from registers.py lines 57-73.  The data_range of
every entry of the table is a two-element pair after post-init
normalisation, so it is modelled as a pair directly. -/
structure RegisterDefinition where
  address : Nat
  name : String
  data_range : Int × Int
  function_code : Nat
  default_value : Option Int := none
  unit : String := ""
  persistent : Bool := false
  data_type : String := "uint"

/-- The REGISTERS table from registers.py lines 77-219, as a finite map
from address to definition.  The Python dict lists address 0x0000 twice
(single-turn then multi-turn value); the later entry wins, exactly as in
a Python dict literal.  The inert description strings are omitted. -/
def REGISTERS : Nat → Option RegisterDefinition
  | 0x0000 => some { address := 0x0000, name := "encoder_multi_value", data_range := (0, 0xFFFFFFFF), function_code := READ_HOLDING_REGISTERS, persistent := false, data_type := "uint" }
  | 0x0002 => some { address := 0x0002, name := "encoder_virtual_value", data_range := (0, 65535), function_code := READ_HOLDING_REGISTERS, persistent := false, data_type := "uint" }
  | 0x0003 => some { address := 0x0003, name := "encoder_angular_speed", data_range := (-32768, 32767), function_code := READ_HOLDING_REGISTERS, data_type := "int" }
  | 0x0004 => some { address := 0x0004, name := "encoder_address", data_range := (1, 255), function_code := WRITE_SINGLE_REGISTER, default_value := some 1, persistent := true, data_type := "uint" }
  | 0x0005 => some { address := 0x0005, name := "baud_rate", data_range := (0, 4), function_code := WRITE_SINGLE_REGISTER, default_value := some 0, persistent := true, data_type := "uint" }
  | 0x0006 => some { address := 0x0006, name := "encoder_mode", data_range := (0, 5), function_code := WRITE_SINGLE_REGISTER, default_value := some 0, persistent := true, data_type := "uint" }
  | 0x0007 => some { address := 0x0007, name := "auto_response_time", data_range := (20, 65535), function_code := WRITE_SINGLE_REGISTER, default_value := some 50, unit := "ms", persistent := true, data_type := "uint" }
  | 0x0008 => some { address := 0x0008, name := "reset_zero_flag", data_range := (0, 1), function_code := WRITE_SINGLE_REGISTER, data_type := "uint" }
  | 0x0009 => some { address := 0x0009, name := "value_increase_direction", data_range := (0, 1), function_code := WRITE_SINGLE_REGISTER, default_value := some 1, persistent := true, data_type := "uint" }
  | 0x000A => some { address := 0x000A, name := "sampling_time", data_range := (0, 65535), function_code := WRITE_SINGLE_REGISTER, default_value := some 100, unit := "ms", persistent := true, data_type := "uint" }
  | 0x000B => some { address := 0x000B, name := "set_current_position", data_range := (0, 0xFFFFFFFF), function_code := WRITE_SINGLE_REGISTER, persistent := true, data_type := "uint" }
  | 0x000E => some { address := 0x000E, name := "set_midpoint", data_range := (0, 1), function_code := WRITE_SINGLE_REGISTER, persistent := true, data_type := "uint" }
  | 0x0020 => some { address := 0x0020, name := "angular_speed_value_2", data_range := (-2147483648, 2147483647), function_code := READ_HOLDING_REGISTERS, persistent := true, data_type := "int" }
  | 0x0025 => some { address := 0x0025, name := "encoder_multi_value_2", data_range := (0, 0xFFFFFFFF), function_code := READ_HOLDING_REGISTERS, persistent := true, data_type := "uint" }
  | _ => none

/-- get_register_info from registers.py lines 222-236: raises KeyError
for an address outside the table.  Raising is modelled with Except. -/
def get_register_info (address : Nat) : Except String RegisterDefinition :=
  match REGISTERS address with
  | some r => Except.ok r
  | none => Except.error "KeyError"

end Registers

namespace Client

open Registers

/-- Outcome of one wire attempt inside read_register (client.py 287-349):
a normal response carrying a value, an ExceptionResponse or a None
response, a raised ModbusException, or any other raised exception. -/
inductive AttemptOutcome where
  | ok (v : Nat)
  | errResponse
  | modbusError
  | ioError
deriving DecidableEq

/-- Observable result of a read_register call: the returned value (None
modelled as none), an exception escaping to the caller if any, how much
the error counter grew, the backoff sleeps performed, and how many wire
attempts were consumed. -/
structure ReadResult where
  value : Option Nat
  raised : Option String
  error_count_delta : Nat
  sleeps : List ℚ
  attempts_used : Nat
deriving DecidableEq

/-- The retry loop of read_register from client.py lines 287-349, for
count=1 with the serial line available and connected.  The loop body is
indexed by the retry counter r = 0,1,2.  get_register_info is called
inside the try block, so its KeyError is caught by the blanket
exception handler, which retries and finally returns None; a register
that does not support reading returns None at once; an ExceptionResponse
or None response retries with a 0.1*(r+1) second sleep and counts one
error on the last round; a ModbusException returns None at once counting
one error; any other exception retries like a bad response.  No path
re-raises, so the raised field is always none. -/
def read_register_go (addr : Nat) (attempts : Nat → AttemptOutcome) :
    Nat → Nat → ReadResult
  | _, 0 => ⟨none, none, 0, [], 0⟩
  | r, fuel+1 =>
    match get_register_info addr with
    | Except.error _ =>
      if r < 2 then
        let rest := read_register_go addr attempts (r+1) fuel
        ⟨rest.value, rest.raised, rest.error_count_delta,
          (0.1 : ℚ) * ((r : ℚ) + 1) :: rest.sleeps, rest.attempts_used⟩
      else ⟨none, none, 1, [], 0⟩
    | Except.ok reg =>
      if reg.function_code ≠ READ_HOLDING_REGISTERS then ⟨none, none, 0, [], 0⟩
      else
        match attempts r with
        | AttemptOutcome.ok v => ⟨some v, none, 0, [], 1⟩
        | AttemptOutcome.errResponse =>
          if r < 2 then
            let rest := read_register_go addr attempts (r+1) fuel
            ⟨rest.value, rest.raised, rest.error_count_delta,
              (0.1 : ℚ) * ((r : ℚ) + 1) :: rest.sleeps, rest.attempts_used + 1⟩
          else ⟨none, none, 1, [], 1⟩
        | AttemptOutcome.modbusError => ⟨none, none, 1, [], 1⟩
        | AttemptOutcome.ioError =>
          if r < 2 then
            let rest := read_register_go addr attempts (r+1) fuel
            ⟨rest.value, rest.raised, rest.error_count_delta,
              (0.1 : ℚ) * ((r : ℚ) + 1) :: rest.sleeps, rest.attempts_used + 1⟩
          else ⟨none, none, 1, [], 1⟩

/-- read_register entry point: the Python for-loop runs the body at most
three times (range(3)), and every third-round path returns. -/
def read_register (addr : Nat) (attempts : Nat → AttemptOutcome) : ReadResult :=
  read_register_go addr attempts 0 3

/-- Outcome of the single wire write inside write_register. -/
inductive WriteAttemptOutcome where
  | okResp
  | errResp
  | raisedModbus
  | raisedOther
deriving DecidableEq

/-- write_register from client.py lines 459-544, for a connected client.
get_register_info is called OUTSIDE the try block (line 478), so its
KeyError propagates to the caller; an unsupported function code or an
out-of-range value returns False before any wire traffic; wire failures
and exceptions return False counting one error.  The slave-address and
baud-rate cache side effects are not needed by any claim and are
elided.  The result pairs the returned Bool with the error counter
increment. -/
def write_register (addr : Nat) (value : Int) (outcome : WriteAttemptOutcome) :
    Except String (Bool × Nat) :=
  match get_register_info addr with
  | Except.error e => Except.error e
  | Except.ok reg =>
    if reg.function_code ≠ WRITE_SINGLE_REGISTER then Except.ok (false, 0)
    else if value < reg.data_range.1 ∨ value > reg.data_range.2 then Except.ok (false, 0)
    else
      match outcome with
      | WriteAttemptOutcome.okResp => Except.ok (true, 0)
      | WriteAttemptOutcome.errResp => Except.ok (false, 1)
      | WriteAttemptOutcome.raisedModbus => Except.ok (false, 1)
      | WriteAttemptOutcome.raisedOther => Except.ok (false, 1)

end Client

namespace Encoder

/-- A lap-change event as emitted by _update_lap_count through
_trigger_event (encoder_controller.py lines 413-425). -/
structure LapEvent where
  direction : String
  laps : Int
  position : Int
deriving DecidableEq

/-- The software lap state of EncoderController relevant to
_update_lap_count and set_zero. -/
structure EncoderState where
  connected : Bool
  position_threshold : Option Int
  last_position : Option Int
  current_lap_count : Int
deriving DecidableEq

/-- _update_lap_count from encoder_controller.py lines 383-430: default
the threshold to 2048 when unset; on the first sample only store the
position; otherwise compare the position difference against the
threshold, counting a lap up when the position fell (clockwise through
zero) and down when it rose, emitting a lap-change event; always store
the current position last.  Returns the new state, the returned lap
count and the emitted events. -/
def update_lap_count (s : EncoderState) (current_position : Int) :
    EncoderState × Int × List LapEvent :=
  let threshold := s.position_threshold.getD 2048
  let s0 := { s with position_threshold := some threshold }
  match s0.last_position with
  | none =>
    ({ s0 with last_position := some current_position }, s0.current_lap_count, [])
  | some lastPos =>
    let pos_diff := current_position - lastPos
    if abs pos_diff > threshold then
      if pos_diff < 0 then
        ({ s0 with current_lap_count := s0.current_lap_count + 1, last_position := some current_position },
          s0.current_lap_count + 1,
          [⟨"clockwise", s0.current_lap_count + 1, current_position⟩])
      else
        ({ s0 with current_lap_count := s0.current_lap_count - 1, last_position := some current_position },
          s0.current_lap_count - 1,
          [⟨"counterclockwise", s0.current_lap_count - 1, current_position⟩])
    else
      ({ s0 with last_position := some current_position }, s0.current_lap_count, [])

/-- Feed a sequence of position samples through _update_lap_count. -/
def run_positions (s : EncoderState) (ps : List Int) : EncoderState :=
  ps.foldl (fun st p => (update_lap_count st p).1) s

/-- The lap state right after connect with resolution 4096: lap count 0,
no stored position, threshold 4096/2 = 2048. -/
def initial_connected_state : EncoderState :=
  ⟨true, some 2048, none, 0⟩

/-- Outcome of the underlying zero-flag register write performed by
modbus_client.set_encoder_zero inside set_zero. -/
inductive ZeroWriteOutcome where
  | success
  | failure
  | raised (msg : String)
deriving DecidableEq

/-- set_zero from encoder_controller.py lines 346-381: when not
connected fail fast; when the hardware write succeeds reset the lap
counter to 0 and the stored position to 0 and return (True, None); when
it returns False or raises leave the lap state alone and return False
with the error text.  The zero-set event payload is not needed by any
claim and is elided. -/
def set_zero (s : EncoderState) (outcome : ZeroWriteOutcome) :
    EncoderState × Bool × Option String :=
  if ¬ s.connected then (s, false, some "編碼器未連接")
  else
    match outcome with
    | ZeroWriteOutcome.success =>
      ({ s with current_lap_count := 0, last_position := some 0 }, true, none)
    | ZeroWriteOutcome.failure => (s, false, some "編碼器零點設置失敗")
    | ZeroWriteOutcome.raised m => (s, false, some m)

end Encoder

namespace Controller

/-- The de-duplication fingerprint (angle, rpm, laps) built in
_on_encoder_data_update (main_controller.py lines 1352-1356). -/
abbrev Fingerprint := ℚ × ℚ × Int

/-- One entry of the continuous_tasks map (main_controller.py lines
1096-1105).  The ttype field models the dict key named type. -/
structure TaskInfo where
  ttype : String
  interval : ℚ
  format : String
  running : Bool
  start_time : ℚ
  source : String
  last_data : Option Fingerprint
  last_sent_time : ℚ
deriving DecidableEq

/-- The MainController state touched by the monitor-task claims:
the continuous-task map (as an association list with distinct keys,
matching a dict) plus the encoder monitor thread and connection flags. -/
structure ControllerState where
  continuous_tasks : List (String × TaskInfo)
  encoder_monitoring : Bool
  encoder_connected : Bool
deriving DecidableEq

/-- A running encoder task, as selected at main_controller.py lines
1314-1315 when deciding whether the shared polling thread must stop. -/
def isEncoderRunning (p : String × TaskInfo) : Bool :=
  p.2.ttype.startsWith "encoder_" && p.2.running

/-- _stop_continuous_task from main_controller.py lines 1298-1318:
missing ids are ignored; otherwise the entry is removed (marking
running=False then popping), and when no running encoder task remains
the shared encoder polling thread is stopped. -/
def stop_continuous_task (s : ControllerState) (task_id : String) : ControllerState :=
  if ¬ (s.continuous_tasks.any fun p => decide (p.1 = task_id)) then s
  else if ((s.continuous_tasks.eraseP fun p => decide (p.1 = task_id)).filter
      isEncoderRunning).isEmpty then
    { s with
        continuous_tasks := s.continuous_tasks.eraseP fun p => decide (p.1 = task_id),
        encoder_monitoring := false }
  else
    { s with continuous_tasks := s.continuous_tasks.eraseP fun p => decide (p.1 = task_id) }

/-- The search condition of the existing-task loop in
_handle_start_monitor (main_controller.py lines 1052-1055). -/
def isActiveFor (source : String) (p : String × TaskInfo) : Bool :=
  decide (p.2.source = source ∧ p.2.ttype = "encoder_monitor" ∧ p.2.running = true)

/-- The existing-task paragraph of _handle_start_monitor
(main_controller.py lines 1050-1071): find the running encoder_monitor
task of this source, stop it through _stop_continuous_task, and then
force-remove the id if it survived (the stop is synchronous, so the
1-second confirmation wait never spins and the forced pop is a no-op). -/
def stop_existing (s : ControllerState) (source : String) : ControllerState :=
  match s.continuous_tasks.find? (isActiveFor source) with
  | some existing =>
    let s2 := stop_continuous_task s existing.1
    { s2 with continuous_tasks :=
        s2.continuous_tasks.eraseP fun p => decide (p.1 = existing.1) }
  | none => s

/-- The shared-thread paragraph of _handle_start_monitor
(main_controller.py lines 1077-1081): stop the encoder polling thread
when it is still alive. -/
def stop_encoder_thread (s : ControllerState) : ControllerState :=
  if s.encoder_monitoring then { s with encoder_monitoring := false } else s

/-- The recording paragraph of _handle_start_monitor
(main_controller.py lines 1083-1108): start the encoder monitor again
and record the fresh task id with running=True. -/
def record_new_task (s : ControllerState) (source new_id : String)
    (interval : ℚ) (format : String) (now : ℚ) : ControllerState :=
  { s with
      encoder_monitoring := true,
      continuous_tasks :=
        (new_id, ⟨"encoder_monitor", interval, format, true, now, source, none, 0⟩)
          :: s.continuous_tasks }

/-- _handle_start_monitor from main_controller.py lines 1027-1123,
executed under the task lock: reject intervals below 0.1s; stop the
existing task of this source if any; stop the shared encoder polling
thread; then start monitoring (which fails when the encoder is not
connected) and only on success record the new task. -/
def handle_start_monitor (s : ControllerState) (source new_id : String)
    (interval : ℚ) (format : String) (now : ℚ) : ControllerState × Bool :=
  if interval < 0.1 then (s, false)
  else
    let s2 := stop_encoder_thread (stop_existing s source)
    if ¬ s2.encoder_connected then (s2, false)
    else (record_new_task s2 source new_id interval format now, true)

/-- The ids of running encoder_monitor tasks owned by a source. -/
def active_monitor_tasks (s : ControllerState) (source : String) : List String :=
  (s.continuous_tasks.filter (isActiveFor source)).map Prod.fst

/-- The MonitorTask invariant from the spec data model: at most one
running encoder_monitor task per client key at any instant. -/
def at_most_one_per_source (s : ControllerState) : Prop :=
  ∀ src, (s.continuous_tasks.filter (isActiveFor src)).length ≤ 1

/-- The per-task send/skip decision of _on_encoder_data_update
(main_controller.py lines 1359-1380): skip tasks that are not running or
have no source, and skip when the fingerprint matches the last one sent
to the task and less than interval/2 seconds have passed since that
send. -/
def data_update_decision (info : TaskInfo) (fp : Fingerprint) (now : ℚ) : Bool :=
  if ¬ info.running then false
  else if info.source = "" then false
  else if info.last_data = some fp ∧ now - info.last_sent_time < info.interval / 2 then false
  else true

/-- _on_encoder_data_update from main_controller.py lines 1334-1426,
restricted to its broadcast bookkeeping: every task whose decision is
positive is broadcast to, and its last_data/last_sent_time fields are
refreshed.  Returns the new state and the ids broadcast to. -/
def on_encoder_data_update (s : ControllerState) (fp : Fingerprint) (now : ℚ) :
    ControllerState × List String :=
  ({ s with continuous_tasks := s.continuous_tasks.map fun p =>
      if data_update_decision p.2 fp now then
        (p.1, { p.2 with last_data := some fp, last_sent_time := now })
      else p },
    (s.continuous_tasks.filter fun p => data_update_decision p.2 fp now).map Prod.fst)

end Controller

namespace Osc

/-- The destination rewrite of _send_data (osc_server.py lines 219-229):
a missing client address is rejected, otherwise the IP is kept and the
port is replaced by the configured return port. -/
def send_data_target (return_port : Nat) (client_address : Option (String × Nat)) :
    Option (String × Nat) :=
  match client_address with
  | none => none
  | some a => some (a.1, return_port)

/-- The address resolution and rewrite of send_response (osc_server.py
lines 1299-1317): fall back to the last client then the request context,
fail when none is known, and re-target the reply to the configured
return port before queueing. -/
def send_response_target (return_port : Nat)
    (client_address last_client context_client : Option (String × Nat)) :
    Option (String × Nat) :=
  let addr :=
    match client_address with
    | some a => some a
    | none =>
      match last_client with
      | some a => some a
      | none => context_client
  match addr with
  | none => none
  | some a => some (a.1, return_port)

/-- A queued reply is later sent by the worker through _send_data, which
rewrites the port again: the full directed-reply path. -/
def response_destination (return_port : Nat)
    (client_address last_client context_client : Option (String × Nat)) :
    Option (String × Nat) :=
  send_data_target return_port
    (send_response_target return_port client_address last_client context_client)

/-- The per-client destination used by broadcast (osc_server.py lines
1347-1352): the stored client address with the port replaced by the
return port, then sent through _send_data. -/
def broadcast_destination (return_port : Nat) (client_addr : String × Nat) :
    Option (String × Nat) :=
  send_data_target return_port (some (client_addr.1, return_port))

end Osc

namespace Monitoring

/-- The observable state of the device watched by ConnectionMonitor. -/
structure MonitorState where
  device_connected : Bool
  last_connection_time : ℚ
  notifications : List (Bool × Option String)
deriving DecidableEq

/-- _perform_health_check from monitoring.py lines 135-163: run the
health-check read only when more than 30 seconds have passed since the
last recorded success; a successful read zeroes the local failure
counter and refreshes the timestamp; a failed read increments the LOCAL
counter and, when it reaches max_failures, flags the device disconnected
and notifies listeners.  The function returns the mutated local counter,
which the Python caller throws away because integers are passed by
value. -/
def perform_health_check (consecutive_failures max_failures : Nat)
    (s : MonitorState) (now : ℚ) (read_result : Option Nat) : Nat × MonitorState :=
  if now - s.last_connection_time > 30 then
    match read_result with
    | some _ => (0, { s with last_connection_time := now })
    | none =>
      let cf := consecutive_failures + 1
      if cf ≥ max_failures then
        (cf, { s with device_connected := false, notifications := s.notifications ++ [(false, some "健康檢查連續失敗")] })
      else (cf, s)
  else (consecutive_failures, s)

/-- One iteration of the while loop of _monitor_task (monitoring.py
lines 84-104) for a connected device: the loop-local variable
consecutive_health_failures is passed to _perform_health_check and never
reassigned from its result, so every tick passes the same value the
variable was initialised with. -/
def monitor_tick (consecutive_health_failures : Nat) (s : MonitorState)
    (now : ℚ) (read_result : Option Nat) : MonitorState :=
  if s.device_connected then
    (perform_health_check consecutive_health_failures 3 s now read_result).2
  else s

/-- Run _monitor_task over a list of (tick time, health-read result)
pairs.  The counter argument is 0 on every tick: it is initialised to 0
before the while loop and never written again. -/
def monitor_run (s : MonitorState) (events : List (ℚ × Option Nat)) : MonitorState :=
  events.foldl (fun st e => monitor_tick 0 st e.1 e.2) s

end Monitoring

namespace Crc
theorem crcBitStep_eq (x : Nat) :
    crcBitStep x = (x >>> 1) ^^^ (if x % 2 = 1 then 0xA001 else 0) := by
  unfold crcBitStep
  rw [Nat.and_one_is_mod]
  rcases Nat.mod_two_eq_zero_or_one x with h | h <;> simp [h]

theorem crcBitStep_lt (x : Nat) (hx : x < 2 ^ 16) : crcBitStep x < 2 ^ 16 := by
  rw [crcBitStep_eq]
  have h1 : x >>> 1 < 2 ^ 16 := by
    rw [Nat.shiftRight_eq_div_pow]
    omega
  split
  · exact Nat.xor_lt_two_pow h1 (by norm_num)
  · simpa using h1

theorem shiftRight_one_xor (x y : Nat) :
    (x ^^^ y) >>> 1 = (x >>> 1) ^^^ (y >>> 1) := by
  apply Nat.eq_of_testBit_eq
  intro i
  simp [Nat.testBit_shiftRight, Nat.testBit_xor]

theorem xor_left_comm_nat (a b c : Nat) : a ^^^ (b ^^^ c) = b ^^^ (a ^^^ c) := by
  rw [← Nat.xor_assoc, Nat.xor_comm a b, Nat.xor_assoc]

theorem crcBitStep_xor (x y : Nat) :
    crcBitStep (x ^^^ y) = crcBitStep x ^^^ crcBitStep y := by
  have hxy : (x ^^^ y) % 2 = (x % 2) ^^^ (y % 2) := by
    rw [← Nat.and_one_is_mod, ← Nat.and_one_is_mod, ← Nat.and_one_is_mod,
      Nat.and_xor_distrib_right]
  rw [crcBitStep_eq, crcBitStep_eq, crcBitStep_eq, shiftRight_one_xor, hxy]
  rcases Nat.mod_two_eq_zero_or_one x with hx | hx <;>
    rcases Nat.mod_two_eq_zero_or_one y with hy | hy <;>
      simp [hx, hy, Nat.xor_assoc, Nat.xor_comm, xor_left_comm_nat]

theorem crcBitStep_ne_zero (x : Nat) (hx : x < 2 ^ 16) (hnz : x ≠ 0) :
    crcBitStep x ≠ 0 := by
  have hs : x >>> 1 = x / 2 := by
    rw [Nat.shiftRight_eq_div_pow]
  rw [crcBitStep_eq]
  split_ifs with hpar
  · intro heq
    have h2 : x >>> 1 = 0xA001 := Nat.xor_eq_zero.mp heq
    rw [hs] at h2
    omega
  · rw [Nat.xor_zero, hs]
    omega

theorem crcIter_lt (n x : Nat) (hx : x < 2 ^ 16) : crcBitStep^[n] x < 2 ^ 16 := by
  induction n generalizing x with
  | zero => simpa using hx
  | succ n ih =>
    rw [Function.iterate_succ_apply]
    exact ih _ (crcBitStep_lt _ hx)

theorem crcIter_xor (n x y : Nat) :
    crcBitStep^[n] (x ^^^ y) = crcBitStep^[n] x ^^^ crcBitStep^[n] y := by
  induction n generalizing x y with
  | zero => simp
  | succ n ih =>
    rw [Function.iterate_succ_apply, Function.iterate_succ_apply,
      Function.iterate_succ_apply, crcBitStep_xor, ih]

theorem crcIter_ne_zero (n x : Nat) (hx : x < 2 ^ 16) (hnz : x ≠ 0) :
    crcBitStep^[n] x ≠ 0 := by
  induction n generalizing x with
  | zero => simpa using hnz
  | succ n ih =>
    rw [Function.iterate_succ_apply]
    exact ih _ (crcBitStep_lt _ hx) (crcBitStep_ne_zero _ hx hnz)

theorem crcByteStep_init_xor (c d b : Nat) :
    crcByteStep (c ^^^ d) b = crcByteStep c b ^^^ crcBitStep^[8] d := by
  unfold crcByteStep
  rw [show (c ^^^ d) ^^^ b = (c ^^^ b) ^^^ d by
    rw [Nat.xor_assoc, Nat.xor_comm d b, ← Nat.xor_assoc], crcIter_xor]

theorem crcByteStep_arg_xor (c b t : Nat) :
    crcByteStep c (b ^^^ t) = crcByteStep c b ^^^ crcBitStep^[8] t := by
  unfold crcByteStep
  rw [← Nat.xor_assoc, crcIter_xor]

theorem crcFrom_cons (init b : Nat) (v : List Nat) :
    crcFrom init (b :: v) = crcFrom (crcByteStep init b) v := rfl

theorem crcFrom_init_xor (v : List Nat) (c d : Nat) :
    crcFrom (c ^^^ d) v = crcFrom c v ^^^ crcBitStep^[8 * v.length] d := by
  induction v generalizing c d with
  | nil => simp [crcFrom]
  | cons b v ih =>
    calc crcFrom (c ^^^ d) (b :: v)
        = crcFrom (crcByteStep c b ^^^ crcBitStep^[8] d) v := by
          rw [crcFrom_cons, crcByteStep_init_xor]
      _ = crcFrom (crcByteStep c b) v ^^^
            crcBitStep^[8 * v.length] (crcBitStep^[8] d) := ih _ _
      _ = crcFrom c (b :: v) ^^^ crcBitStep^[8 * (b :: v).length] d := by
          rw [← Function.iterate_add_apply, crcFrom_cons, List.length_cons,
            show 8 * v.length + 8 = 8 * (v.length + 1) by ring]

theorem crcFrom_set (d : List Nat) (init t k : Nat) (hk : k < d.length) :
    crcFrom init (d.set k (d.getD k 0 ^^^ t)) =
      crcFrom init d ^^^ crcBitStep^[8 * (d.length - k)] t := by
  induction d generalizing init k with
  | nil => simp at hk
  | cons b v ih =>
    cases k with
    | zero =>
      simp only [List.getD_cons_zero, List.set_cons_zero, List.length_cons,
        Nat.sub_zero]
      rw [crcFrom_cons, crcFrom_cons, crcByteStep_arg_xor, crcFrom_init_xor,
        ← Function.iterate_add_apply,
        show 8 * v.length + 8 = 8 * (v.length + 1) by ring]
    | succ k =>
      have hk2 : k < v.length := by simpa using hk
      simp only [List.set_cons_succ, List.getD_cons_succ, List.length_cons,
        Nat.succ_sub_succ]
      rw [crcFrom_cons, crcFrom_cons]
      exact ih (crcByteStep init b) k hk2

theorem crcByteStep_lt (c b : Nat) (hc : c < 2 ^ 16) (hb : b < 2 ^ 16) :
    crcByteStep c b < 2 ^ 16 :=
  crcIter_lt 8 _ (Nat.xor_lt_two_pow hc hb)

theorem crcFrom_lt (d : List Nat) (init : Nat) (hinit : init < 2 ^ 16)
    (hd : ∀ b ∈ d, b < 256) : crcFrom init d < 2 ^ 16 := by
  induction d generalizing init with
  | nil => simpa [crcFrom] using hinit
  | cons b v ih =>
    simp only [crcFrom, List.foldl_cons]
    have hb : b < 2 ^ 16 := by
      have := hd b (by simp)
      omega
    exact ih (crcByteStep init b) (crcByteStep_lt _ _ hinit hb)
      (fun x hx => hd x (by simp [hx]))

theorem calculate_crc_lt (d : List Nat) (hd : ∀ b ∈ d, b < 256) :
    calculate_crc d < 2 ^ 16 :=
  crcFrom_lt d 0xFFFF (by norm_num) hd

theorem and_ff_eq_mod (x : Nat) : x &&& 0xFF = x % 256 := by
  have h := Nat.and_pow_two_sub_one_eq_mod x 8
  norm_num at h
  exact h

theorem shiftRight_eight_eq_div (x : Nat) : x >>> 8 = x / 256 := by
  rw [Nat.shiftRight_eq_div_pow]

theorem pack_eq (C : Nat) (hC : C < 2 ^ 16) :
    ((C >>> 8) &&& 0xFF) <<< 8 ||| (C &&& 0xFF) = C := by
  have hlo : C &&& 0xFF = C % 256 := and_ff_eq_mod C
  have hdiv : C / 256 < 256 := by omega
  have hhi : (C >>> 8) &&& 0xFF = C / 256 := by
    rw [shiftRight_eight_eq_div, and_ff_eq_mod]
    omega
  rw [hlo, hhi, Nat.shiftLeft_eq,
    show C / 256 * 2 ^ 8 = 2 ^ 8 * (C / 256) by ring,
    ← Nat.mul_add_lt_is_or (by omega : C % 256 < 2 ^ 8) (C / 256)]
  omega

theorem verify_append_crc (d : List Nat) (hd : ∀ b ∈ d, b < 256) :
    verify_crc (append_crc d) = true := by
  have hC := calculate_crc_lt d hd
  unfold verify_crc append_crc
  have hlen :
      (d ++ [calculate_crc d &&& 0xFF, (calculate_crc d >>> 8) &&& 0xFF]).length =
        d.length + 2 := by simp
  rw [hlen, if_neg (by omega),
    show d.length + 2 - 2 = d.length by omega,
    show d.length + 2 - 1 = d.length + 1 by omega,
    List.take_left' rfl,
    List.getD_append_right _ _ _ _ (by omega),
    List.getD_append_right _ _ _ _ (by omega),
    show d.length + 1 - d.length = 1 by omega, Nat.sub_self]
  simp only [List.getD_cons_zero, List.getD_cons_succ]
  rw [pack_eq _ hC]
  exact beq_self_eq_true _

theorem verify_flip_false (d : List Nat) (hd : ∀ b ∈ d, b < 256) (k j : Nat)
    (hk : k < (append_crc d).length) (hj : j < 8) :
    verify_crc (flip_bit (append_crc d) k j) = false := by
  have hC := calculate_crc_lt d hd
  have ht1 : (1 : Nat) ≤ 2 ^ j := Nat.one_le_two_pow
  have ht2 : 2 ^ j ≤ 2 ^ 7 := Nat.pow_le_pow_right (by norm_num) (by omega)
  have hlenA : (append_crc d).length = d.length + 2 := by
    simp [append_crc]
  rw [hlenA] at hk
  rcases Nat.lt_or_ge k d.length with hkd | hkd
  · -- bit flipped inside the message part
    have hget : (append_crc d).getD k 0 = d.getD k 0 := by
      unfold append_crc
      exact List.getD_append _ _ _ _ hkd
    have hset :
        flip_bit (append_crc d) k j =
          d.set k (d.getD k 0 ^^^ 2 ^ j) ++
            [calculate_crc d &&& 0xFF, (calculate_crc d >>> 8) &&& 0xFF] := by
      unfold flip_bit append_crc
      rw [show (d ++ [calculate_crc d &&& 0xFF,
          (calculate_crc d >>> 8) &&& 0xFF]).getD k 0 = d.getD k 0 from hget,
        List.set_append_left _ _ hkd]
    rw [hset]
    unfold verify_crc
    have hlen2 :
        (d.set k (d.getD k 0 ^^^ 2 ^ j) ++
          [calculate_crc d &&& 0xFF, (calculate_crc d >>> 8) &&& 0xFF]).length =
          d.length + 2 := by simp
    rw [hlen2, if_neg (by omega),
      show d.length + 2 - 2 = d.length by omega,
      show d.length + 2 - 1 = d.length + 1 by omega,
      List.take_left' (by simp),
      List.getD_append_right _ _ _ _ (by simp),
      List.getD_append_right _ _ _ _ (by simp),
      List.length_set,
      show d.length + 1 - d.length = 1 by omega, Nat.sub_self]
    simp only [List.getD_cons_zero, List.getD_cons_succ]
    rw [pack_eq _ hC]
    have hcalc :
        calculate_crc (d.set k (d.getD k 0 ^^^ 2 ^ j)) =
          calculate_crc d ^^^ crcBitStep^[8 * (d.length - k)] (2 ^ j) :=
      crcFrom_set d 0xFFFF (2 ^ j) k hkd
    rw [hcalc, beq_eq_false_iff_ne]
    intro heq
    have hne : crcBitStep^[8 * (d.length - k)] (2 ^ j) ≠ 0 :=
      crcIter_ne_zero _ _ (by omega) (by omega)
    have h4 : calculate_crc d ^^^
        (calculate_crc d ^^^ crcBitStep^[8 * (d.length - k)] (2 ^ j)) =
        calculate_crc d ^^^ calculate_crc d := by
      rw [heq]
    rw [← Nat.xor_assoc, Nat.xor_self, Nat.zero_xor] at h4
    exact hne h4
  · -- bit flipped inside the two appended CRC bytes
    have hflip :
        flip_bit (append_crc d) k j =
          d ++ ([calculate_crc d &&& 0xFF, (calculate_crc d >>> 8) &&& 0xFF].set
            (k - d.length)
            ([calculate_crc d &&& 0xFF,
              (calculate_crc d >>> 8) &&& 0xFF].getD (k - d.length) 0 ^^^ 2 ^ j)) := by
      unfold flip_bit append_crc
      rw [List.getD_append_right _ _ _ _ hkd, List.set_append_right _ _ hkd]
    have hlo : calculate_crc d &&& 0xFF = calculate_crc d % 256 := and_ff_eq_mod _
    have hhi : (calculate_crc d >>> 8) &&& 0xFF = calculate_crc d / 256 := by
      rw [shiftRight_eight_eq_div, and_ff_eq_mod]
      omega
    rcases Nat.lt_or_ge k (d.length + 1) with hk1 | hk1
    · -- flip in the low CRC byte
      have hkn : k - d.length = 0 := by omega
      rw [hflip, hkn]
      simp only [List.set_cons_zero, List.getD_cons_zero]
      unfold verify_crc
      rw [show (d ++ [calculate_crc d &&& 0xFF ^^^ 2 ^ j,
            (calculate_crc d >>> 8) &&& 0xFF]).length = d.length + 2 by simp,
        if_neg (by omega),
        show d.length + 2 - 2 = d.length by omega,
        show d.length + 2 - 1 = d.length + 1 by omega,
        List.take_left' rfl,
        List.getD_append_right _ _ _ _ (by omega),
        List.getD_append_right _ _ _ _ (by omega),
        show d.length + 1 - d.length = 1 by omega, Nat.sub_self]
      simp only [List.getD_cons_zero, List.getD_cons_succ]
      rw [beq_eq_false_iff_ne, hlo, hhi, Nat.shiftLeft_eq,
        show calculate_crc d / 256 * 2 ^ 8 = 2 ^ 8 * (calculate_crc d / 256) by ring,
        ← Nat.mul_add_lt_is_or
          (Nat.xor_lt_two_pow (by omega) (by omega)) (calculate_crc d / 256)]
      intro heq
      have hx : calculate_crc d % 256 = calculate_crc d % 256 ^^^ 2 ^ j := by omega
      have h0 : (2 : Nat) ^ j = 0 := by
        have h5 : calculate_crc d % 256 ^^^ (calculate_crc d % 256 ^^^ 2 ^ j) =
            calculate_crc d % 256 ^^^ calculate_crc d % 256 := by
          rw [← hx]
        rwa [← Nat.xor_assoc, Nat.xor_self, Nat.zero_xor] at h5
      omega
    · -- flip in the high CRC byte
      have hkn : k - d.length = 1 := by omega
      rw [hflip, hkn]
      simp only [List.set_cons_succ, List.set_cons_zero, List.getD_cons_succ,
        List.getD_cons_zero]
      unfold verify_crc
      rw [show (d ++ [calculate_crc d &&& 0xFF,
            (calculate_crc d >>> 8) &&& 0xFF ^^^ 2 ^ j]).length = d.length + 2 by simp,
        if_neg (by omega),
        show d.length + 2 - 2 = d.length by omega,
        show d.length + 2 - 1 = d.length + 1 by omega,
        List.take_left' rfl,
        List.getD_append_right _ _ _ _ (by omega),
        List.getD_append_right _ _ _ _ (by omega),
        show d.length + 1 - d.length = 1 by omega, Nat.sub_self]
      simp only [List.getD_cons_zero, List.getD_cons_succ]
      rw [beq_eq_false_iff_ne, hlo, hhi, Nat.shiftLeft_eq,
        show (calculate_crc d / 256 ^^^ 2 ^ j) * 2 ^ 8 =
          2 ^ 8 * (calculate_crc d / 256 ^^^ 2 ^ j) by ring,
        ← Nat.mul_add_lt_is_or (by omega : calculate_crc d % 256 < 2 ^ 8)]
      intro heq
      have hx : calculate_crc d / 256 = calculate_crc d / 256 ^^^ 2 ^ j := by omega
      have h0 : (2 : Nat) ^ j = 0 := by
        have h5 : calculate_crc d / 256 ^^^ (calculate_crc d / 256 ^^^ 2 ^ j) =
            calculate_crc d / 256 ^^^ calculate_crc d / 256 := by
          rw [← hx]
        rwa [← Nat.xor_assoc, Nat.xor_self, Nat.zero_xor] at h5
      omega


end Crc

namespace Crc

set_option maxRecDepth 10000 in
/-- C1: for every byte sequence d, verify_crc (append_crc d) returns
true, and flipping any single bit of the framed result makes verify_crc
return false on the corrupted sequence. -/
theorem claim_C1_crc_round_trip_and_bit_flip (d : List Nat)
    (hd : ∀ b ∈ d, b < 256) :
    verify_crc (append_crc d) = true ∧
    ∀ k j, k < (append_crc d).length → j < 8 →
      verify_crc (flip_bit (append_crc d) k j) = false :=
  ⟨verify_append_crc d hd, fun k j hk hj => verify_flip_false d hd k j hk hj⟩

set_option maxRecDepth 100000 in
/-- Witness for C1 at the concrete request frame [1, 3, 0, 0, 0, 1]. -/
theorem claim_C1_witness :
    verify_crc (append_crc [1, 3, 0, 0, 0, 1]) = true ∧
    verify_crc (flip_bit (append_crc [1, 3, 0, 0, 0, 1]) 0 0) = false := by
  have h := claim_C1_crc_round_trip_and_bit_flip [1, 3, 0, 0, 0, 1] (by decide)
  exact ⟨h.1, h.2 0 0 (by decide) (by decide)⟩

/-- C9: verify_crc returns false on every input shorter than two bytes
without raising, and on longer inputs the two trailing-byte reads are at
indices length-1 and length-2, both inside the input, so the total Lean
embedding never indexes outside its argument. -/
theorem claim_C9_verify_crc_short_input_safe (d : List Nat) :
    (d.length < 2 → verify_crc d = false) ∧
    ∀ h : 2 ≤ d.length,
      verify_crc d =
        (calculate_crc (d.take (d.length - 2)) ==
          (d.get ⟨d.length - 1, by omega⟩) <<< 8 |||
            (d.get ⟨d.length - 2, by omega⟩)) := by
  constructor
  · intro h
    unfold verify_crc
    rw [if_pos h]
  · intro h
    unfold verify_crc
    rw [if_neg (by omega), List.getD_eq_get _ _ (by omega),
      List.getD_eq_get _ _ (by omega)]

set_option maxRecDepth 10000 in
/-- Witness for C9 at the short input [7] and the in-range input
[1, 2, 3]. -/
theorem claim_C9_witness :
    verify_crc [7] = false ∧
    verify_crc [1, 2, 3] =
      (calculate_crc ([1, 2, 3].take 1) ==
        ([1, 2, 3].get ⟨2, by decide⟩) <<< 8 ||| ([1, 2, 3].get ⟨1, by decide⟩)) :=
  ⟨(claim_C9_verify_crc_short_input_safe [7]).1 (by decide),
    (claim_C9_verify_crc_short_input_safe [1, 2, 3]).2 (by decide)⟩

end Crc

namespace Encoder

/-- C2: the lap-count update stores the first sample without changing
the count; afterwards a position difference beyond the threshold counts
one lap up when the position fell and one down when it rose, leaving the
count alone otherwise, and the stored position always becomes the
current one; with threshold 2048 the sequence [4090, 10] yields lap
count 1 and [100, 150] yields lap count 0. -/
theorem claim_C2_lap_count_algorithm :
    (∀ s cur, s.last_position = none →
      update_lap_count s cur =
        ({ s with position_threshold := some (s.position_threshold.getD 2048),
                  last_position := some cur }, s.current_lap_count, [])) ∧
    (∀ s cur lastPos, s.last_position = some lastPos →
      (update_lap_count s cur).1.current_lap_count =
        (if abs (cur - lastPos) > s.position_threshold.getD 2048 then
          if cur - lastPos < 0 then s.current_lap_count + 1
          else s.current_lap_count - 1
         else s.current_lap_count) ∧
      (update_lap_count s cur).1.last_position = some cur) ∧
    (run_positions initial_connected_state [4090, 10]).current_lap_count = 1 ∧
    (run_positions initial_connected_state [100, 150]).current_lap_count = 0 := by
  refine ⟨?_, ?_, by decide, by decide⟩
  · intro s cur h
    simp [update_lap_count, h]
  · intro s cur lastPos h
    simp only [update_lap_count, h]
    split_ifs <;> simp_all

/-- Witness for C2: the first sample at position 5, then a wrap step
from 4090 to 10. -/
theorem claim_C2_witness :
    update_lap_count ⟨true, some 2048, none, 0⟩ 5 =
      (⟨true, some 2048, some 5, 0⟩, 0, []) ∧
    (update_lap_count ⟨true, some 2048, some 4090, 0⟩ 10).1.current_lap_count = 1 ∧
    (update_lap_count ⟨true, some 2048, some 4090, 0⟩ 10).1.last_position = some 10 := by
  have h := claim_C2_lap_count_algorithm
  refine ⟨h.1 ⟨true, some 2048, none, 0⟩ 5 rfl, ?_, ?_⟩
  · rw [(h.2.1 ⟨true, some 2048, some 4090, 0⟩ 10 4090 rfl).1]
    decide
  · exact (h.2.1 ⟨true, some 2048, some 4090, 0⟩ 10 4090 rfl).2

/-- C10: when the encoder is connected, a successful zero write resets
the lap count and stored position to 0 and returns success; a failed or
raising write leaves the lap state untouched and returns false with the
error text. -/
theorem claim_C10_set_zero_atomic (s : EncoderState) (h : s.connected = true) :
    set_zero s ZeroWriteOutcome.success =
      ({ s with current_lap_count := 0, last_position := some 0 }, true, none) ∧
    set_zero s ZeroWriteOutcome.failure = (s, false, some "編碼器零點設置失敗") ∧
    ∀ m, set_zero s (ZeroWriteOutcome.raised m) = (s, false, some m) := by
  refine ⟨?_, ?_, fun m => ?_⟩ <;> simp [set_zero, h]

/-- Witness for C10 at a concrete connected lap state. -/
theorem claim_C10_witness :
    set_zero ⟨true, some 2048, some 55, 7⟩ ZeroWriteOutcome.success =
      (⟨true, some 2048, some 0, 0⟩, true, none) ∧
    set_zero ⟨true, some 2048, some 55, 7⟩ ZeroWriteOutcome.failure =
      (⟨true, some 2048, some 55, 7⟩, false, some "編碼器零點設置失敗") ∧
    set_zero ⟨true, some 2048, some 55, 7⟩ (ZeroWriteOutcome.raised "IOError") =
      (⟨true, some 2048, some 55, 7⟩, false, some "IOError") := by
  have h := claim_C10_set_zero_atomic ⟨true, some 2048, some 55, 7⟩ rfl
  exact ⟨h.1, h.2.1, h.2.2 "IOError"⟩

end Encoder

namespace Osc

/-- C4: every outbound directed reply and every broadcast is sent to the
inbound IP paired with the configured return port, and when the inbound
source port differs from the return port the reply never goes to the
source port. -/
theorem claim_C4_reply_port_invariant (return_port source_port : Nat)
    (ip : String) (last_client context_client : Option (String × Nat)) :
    response_destination return_port (some (ip, source_port))
        last_client context_client = some (ip, return_port) ∧
    (∀ a : String × Nat, send_data_target return_port (some a) = some (a.1, return_port)) ∧
    (∀ c : String × Nat, broadcast_destination return_port c = some (c.1, return_port)) ∧
    (source_port ≠ return_port →
      response_destination return_port (some (ip, source_port))
          last_client context_client ≠ some (ip, source_port)) := by
  refine ⟨rfl, fun a => rfl, fun c => rfl, fun hne heq => ?_⟩
  have h2 : return_port = source_port := by
    have h3 : (some (ip, return_port) : Option (String × Nat)) = some (ip, source_port) := heq
    simpa using h3
  exact hne h2.symm

/-- Witness for C4 at a concrete client address and return port. -/
theorem claim_C4_witness :
    response_destination 9000 (some ("10.0.0.5", 54321)) none none =
      some ("10.0.0.5", 9000) ∧
    response_destination 9000 (some ("10.0.0.5", 54321)) none none ≠
      some ("10.0.0.5", 54321) := by
  have h := claim_C4_reply_port_invariant 9000 54321 "10.0.0.5" none none
  exact ⟨h.1, h.2.2.2 (by decide)⟩

end Osc

namespace Monitoring

/-- C8: three consecutive failed health checks leave the device flagged
connected and never notify listeners, because _monitor_task passes its
failure counter to _perform_health_check by value and discards the
returned count, so the counter restarts from zero on every tick; had two
earlier failures been remembered, the next failure would disconnect. -/
theorem claim_C8_health_check_counter_lost :
    (monitor_run ⟨true, 0, []⟩ [(40, none), (80, none), (120, none)]).device_connected = true ∧
    (monitor_run ⟨true, 0, []⟩ [(40, none), (80, none), (120, none)]).notifications = [] ∧
    (perform_health_check 2 3 ⟨true, 0, []⟩ 40 none).2.device_connected = false := by
  norm_num [monitor_run, monitor_tick, perform_health_check]

end Monitoring

namespace Client

open Registers

theorem read_register_go_raised_none (addr : Nat) (f : Nat → AttemptOutcome)
    (r fuel : Nat) : (read_register_go addr f r fuel).raised = none := by
  induction fuel generalizing r with
  | zero => rfl
  | succ fuel ih =>
    unfold read_register_go
    rcases get_register_info addr with e | reg <;>
      rcases hf : f r with v | _ | _ | _ <;>
        simp only [hf] <;> split_ifs <;> simp [ih]

theorem read_register_go_attempts_le (addr : Nat) (f : Nat → AttemptOutcome)
    (r fuel : Nat) : (read_register_go addr f r fuel).attempts_used ≤ fuel := by
  induction fuel generalizing r with
  | zero => exact Nat.le_refl 0
  | succ fuel ih =>
    have hle := ih (r+1)
    unfold read_register_go
    rcases get_register_info addr with e | reg <;>
      rcases hf : f r with v | _ | _ | _ <;>
        simp only [hf] <;> split_ifs <;> simp <;> omega

/-- C6: a register read whose first two wire attempts fail and whose
third returns a value surfaces as success, with no error counted, no
exception, and the linear backoff sleeps 0.1 and 0.2 seconds; the retry
loop never consumes more than three attempts. -/
theorem claim_C6_read_retry_success (v : Nat) (attempts : Nat → AttemptOutcome)
    (h0 : attempts 0 = AttemptOutcome.errResponse)
    (h1 : attempts 1 = AttemptOutcome.errResponse)
    (h2 : attempts 2 = AttemptOutcome.ok v) :
    (read_register 0x0000 attempts).value = some v ∧
    (read_register 0x0000 attempts).raised = none ∧
    (read_register 0x0000 attempts).error_count_delta = 0 ∧
    (read_register 0x0000 attempts).sleeps = [0.1, 0.2] ∧
    ∀ addr f, (read_register addr f).attempts_used ≤ 3 := by
  refine ⟨?_, ?_, ?_, ?_, fun addr f => read_register_go_attempts_le addr f 0 3⟩ <;>
    norm_num [read_register, read_register_go, get_register_info, REGISTERS,
      READ_HOLDING_REGISTERS, h0, h1, h2]

/-- Witness for C6 with a concrete fail-fail-succeed wire schedule. -/
theorem claim_C6_witness :
    (read_register 0x0000 (fun r => if r = 0 then AttemptOutcome.errResponse
      else if r = 1 then AttemptOutcome.errResponse
      else AttemptOutcome.ok 42)).value = some 42 ∧
    (read_register 0x0000 (fun r => if r = 0 then AttemptOutcome.errResponse
      else if r = 1 then AttemptOutcome.errResponse
      else AttemptOutcome.ok 42)).error_count_delta = 0 := by
  have h := claim_C6_read_retry_success 42
    (fun r => if r = 0 then AttemptOutcome.errResponse
      else if r = 1 then AttemptOutcome.errResponse
      else AttemptOutcome.ok 42) rfl rfl rfl
  exact ⟨h.1, h.2.2.1⟩

/-- C7 counterexample: address 0x0001 is not in the register map, yet
read_register raises nothing to its caller and returns an ordinary None
failure, so an undefined address is not signaled distinctly on the read
path. -/
theorem claim_C7_counterexample :
    REGISTERS 0x0001 = none ∧
    (read_register 0x0001 (fun _ => AttemptOutcome.errResponse)).raised = none ∧
    (read_register 0x0001 (fun _ => AttemptOutcome.errResponse)).value = none := by
  refine ⟨rfl, read_register_go_raised_none _ _ 0 3, ?_⟩
  norm_num [read_register, read_register_go, get_register_info, REGISTERS]

/-- C7 amended: an undefined register address raises KeyError to the
caller of write_register, whose lookup sits outside the try block, but
on the read path the KeyError is swallowed by the blanket exception
handler: read_register returns None with the error counter incremented
and never lets any exception escape, for any address and any wire
schedule. -/
theorem claim_C7_invalid_address_signalling (addr : Nat)
    (h : REGISTERS addr = none) (attempts : Nat → AttemptOutcome)
    (value : Int) (outcome : WriteAttemptOutcome) :
    write_register addr value outcome = Except.error "KeyError" ∧
    (read_register addr attempts).raised = none ∧
    (read_register addr attempts).value = none ∧
    (read_register addr attempts).error_count_delta = 1 ∧
    ∀ a f, (read_register a f).raised = none := by
  refine ⟨?_, read_register_go_raised_none _ _ 0 3, ?_, ?_,
    fun a f => read_register_go_raised_none _ _ 0 3⟩ <;>
    norm_num [write_register, read_register, read_register_go,
      get_register_info, h]

/-- Witness for C7 amended at the undefined address 0x0001. -/
theorem claim_C7_witness :
    write_register 0x0001 1 WriteAttemptOutcome.okResp = Except.error "KeyError" ∧
    (read_register 0x0001 (fun _ => AttemptOutcome.ok 5)).value = none := by
  have h := claim_C7_invalid_address_signalling 0x0001 rfl
    (fun _ => AttemptOutcome.ok 5) 1 WriteAttemptOutcome.okResp
  exact ⟨h.1, h.2.2.1⟩

end Client

namespace Controller

theorem length_le_one_eq_singleton {α : Type} (l : List α) (x : α)
    (hl : l.length ≤ 1) (hx : x ∈ l) : l = [x] := by
  cases l with
  | nil => simp at hx
  | cons a t =>
    cases t with
    | nil =>
      simp at hx
      simp [hx]
    | cons b t2 => simp at hl

theorem key_not_mem_eraseP (l : List (String × TaskInfo)) (tid : String)
    (hnd : (l.map Prod.fst).Nodup) :
    tid ∉ (l.eraseP fun p => decide (p.1 = tid)).map Prod.fst := by
  induction l with
  | nil => simp
  | cons a l ih =>
    rw [List.map_cons, List.nodup_cons] at hnd
    by_cases ha : a.1 = tid
    · rw [List.eraseP_cons_of_pos (by simp [ha])]
      rw [← ha]
      exact hnd.1
    · rw [List.eraseP_cons_of_neg (by simp [ha]), List.map_cons]
      intro hmem
      rcases List.mem_cons.mp hmem with h | h
      · exact ha h.symm
      · exact ih hnd.2 h

theorem stop_tasks_sublist (s : ControllerState) (tid : String) :
    List.Sublist (stop_continuous_task s tid).continuous_tasks s.continuous_tasks := by
  unfold stop_continuous_task
  split_ifs <;> first
    | exact List.Sublist.refl _
    | exact List.eraseP_sublist _

theorem stop_task_removes (s : ControllerState) (tid : String)
    (hnd : (s.continuous_tasks.map Prod.fst).Nodup) :
    tid ∉ (stop_continuous_task s tid).continuous_tasks.map Prod.fst := by
  unfold stop_continuous_task
  split_ifs with h1 h2
  · exact key_not_mem_eraseP _ _ hnd
  · exact key_not_mem_eraseP _ _ hnd
  · intro hmem
    apply h1
    rw [List.any_eq_true]
    rcases List.mem_map.mp hmem with ⟨p, hp, hfst⟩
    exact ⟨p, hp, by simp [hfst]⟩

theorem stop_task_flag (s : ControllerState) (tid : String)
    (hmem : tid ∈ s.continuous_tasks.map Prod.fst)
    (hempty : ((s.continuous_tasks.eraseP fun p => decide (p.1 = tid)).filter
      isEncoderRunning).isEmpty = true) :
    (stop_continuous_task s tid).encoder_monitoring = false := by
  have hany : s.continuous_tasks.any (fun p => decide (p.1 = tid)) = true := by
    rw [List.any_eq_true]
    rcases List.mem_map.mp hmem with ⟨p, hp, hfst⟩
    exact ⟨p, hp, by simp [hfst]⟩
  simp [stop_continuous_task, hany, hempty]

theorem stop_encoder_thread_tasks (s : ControllerState) :
    (stop_encoder_thread s).continuous_tasks = s.continuous_tasks := by
  unfold stop_encoder_thread
  split_ifs <;> rfl

theorem stop_encoder_thread_conn (s : ControllerState) :
    (stop_encoder_thread s).encoder_connected = s.encoder_connected := by
  unfold stop_encoder_thread
  split_ifs <;> rfl

theorem stop_existing_sublist (s : ControllerState) (source : String) :
    List.Sublist (stop_existing s source).continuous_tasks s.continuous_tasks := by
  unfold stop_existing
  rcases hfind : s.continuous_tasks.find? (isActiveFor source) with _ | ex
  · exact List.Sublist.refl _
  · exact List.Sublist.trans (List.eraseP_sublist _) (stop_tasks_sublist s ex.1)

theorem stop_existing_active_nil (s : ControllerState) (source : String)
    (hnd : (s.continuous_tasks.map Prod.fst).Nodup)
    (hinv : at_most_one_per_source s) :
    (stop_existing s source).continuous_tasks.filter (isActiveFor source) = [] := by
  unfold stop_existing
  rcases hfind : s.continuous_tasks.find? (isActiveFor source) with _ | ex
  · dsimp only
    rw [List.filter_eq_nil_iff]
    intro p hp
    exact List.find?_eq_none.mp hfind p hp
  · dsimp only
    have hex_mem : ex ∈ s.continuous_tasks := List.mem_of_find?_eq_some hfind
    have hex_act : isActiveFor source ex = true := List.find?_some hfind
    have hstop_nd :
        ((stop_continuous_task s ex.1).continuous_tasks.map Prod.fst).Nodup :=
      List.Nodup.sublist (List.Sublist.map Prod.fst (stop_tasks_sublist s ex.1)) hnd
    have hkey : ex.1 ∉
        (((stop_continuous_task s ex.1).continuous_tasks.eraseP
          fun p => decide (p.1 = ex.1)).map Prod.fst) :=
      key_not_mem_eraseP _ _ hstop_nd
    have hsub : List.Sublist
        ((stop_continuous_task s ex.1).continuous_tasks.eraseP
          fun p => decide (p.1 = ex.1)) s.continuous_tasks :=
      List.Sublist.trans (List.eraseP_sublist _) (stop_tasks_sublist s ex.1)
    have hsing : s.continuous_tasks.filter (isActiveFor source) = [ex] :=
      length_le_one_eq_singleton _ _ (hinv source)
        (List.mem_filter.mpr ⟨hex_mem, hex_act⟩)
    rw [List.filter_eq_nil_iff]
    intro p hp hact
    have hpl : p ∈ s.continuous_tasks := hsub.subset hp
    have hpf : p ∈ s.continuous_tasks.filter (isActiveFor source) :=
      List.mem_filter.mpr ⟨hpl, hact⟩
    rw [hsing] at hpf
    have hpe : p = ex := by simpa using hpf
    exact hkey (List.mem_map.mpr ⟨ex, hpe ▸ hp, rfl⟩)

theorem isActiveFor_new (source new_id src : String) (interval : ℚ)
    (format : String) (now : ℚ) :
    isActiveFor src
      (new_id, ⟨"encoder_monitor", interval, format, true, now, source, none, 0⟩) =
      decide (source = src) := by
  simp [isActiveFor]

theorem handle_preserves_inv (s : ControllerState) (source new_id : String)
    (interval : ℚ) (format : String) (now : ℚ)
    (hnd : (s.continuous_tasks.map Prod.fst).Nodup)
    (hinv : at_most_one_per_source s) :
    at_most_one_per_source
      (handle_start_monitor s source new_id interval format now).1 := by
  have hsub2 : List.Sublist
      (stop_encoder_thread (stop_existing s source)).continuous_tasks
      s.continuous_tasks := by
    rw [stop_encoder_thread_tasks]
    exact stop_existing_sublist s source
  have hle : ∀ src,
      ((stop_encoder_thread (stop_existing s source)).continuous_tasks.filter
        (isActiveFor src)).length ≤ 1 :=
    fun src => Nat.le_trans (List.Sublist.length_le (hsub2.filter _)) (hinv src)
  by_cases hiv : interval < 0.1
  · simp only [handle_start_monitor, if_pos hiv]
    exact hinv
  · simp only [handle_start_monitor, if_neg hiv]
    by_cases hc : (stop_encoder_thread (stop_existing s source)).encoder_connected
    all_goals simp only [hc, not_true, not_false_iff, if_true, if_false]
    · -- monitoring restarted and the new task recorded
      intro src
      simp only [record_new_task, List.filter_cons, isActiveFor_new]
      by_cases hsrc : source = src
      · rw [if_pos (by simp [hsrc])]
        have hnil : (stop_encoder_thread (stop_existing s source)).continuous_tasks.filter
            (isActiveFor src) = [] := by
          rw [stop_encoder_thread_tasks, ← hsrc]
          exact stop_existing_active_nil s source hnd hinv
        simp [hnil]
      · rw [if_neg (by simpa using hsrc)]
        exact hle src
    · exact hle

end Controller

namespace Controller

/-- C3: starting a monitor preserves the at-most-one-running-task-per-
client invariant; stopping a task removes its id and halts the shared
encoder polling thread when no running encoder task remains; and in the
concrete two-call scenario, starting twice for the same client key
leaves exactly the second task id active, with the first id gone and the
encoder thread confirmed stopped by the intermediate stop. -/
theorem claim_C3_monitor_singleton :
    (∀ s source new_id interval format now,
      (s.continuous_tasks.map Prod.fst).Nodup →
      at_most_one_per_source s →
      at_most_one_per_source
        (handle_start_monitor s source new_id interval format now).1) ∧
    (∀ s tid, (s.continuous_tasks.map Prod.fst).Nodup →
      tid ∉ (stop_continuous_task s tid).continuous_tasks.map Prod.fst) ∧
    (∀ s tid, tid ∈ s.continuous_tasks.map Prod.fst →
      ((s.continuous_tasks.eraseP fun p => decide (p.1 = tid)).filter
        isEncoderRunning).isEmpty = true →
      (stop_continuous_task s tid).encoder_monitoring = false) ∧
    active_monitor_tasks
      (handle_start_monitor ⟨[], false, true⟩ "client1" "id1" (1/2) "osc" 100).1
      "client1" = ["id1"] ∧
    active_monitor_tasks
      (handle_start_monitor
        (handle_start_monitor ⟨[], false, true⟩ "client1" "id1" (1/2) "osc" 100).1
        "client1" "id2" (1/2) "osc" 200).1 "client1" = ["id2"] ∧
    "id1" ∉ (handle_start_monitor
        (handle_start_monitor ⟨[], false, true⟩ "client1" "id1" (1/2) "osc" 100).1
        "client1" "id2" (1/2) "osc" 200).1.continuous_tasks.map Prod.fst ∧
    (stop_continuous_task
      (handle_start_monitor ⟨[], false, true⟩ "client1" "id1" (1/2) "osc" 100).1
      "id1").encoder_monitoring = false ∧
    "id1" ∉ (stop_continuous_task
      (handle_start_monitor ⟨[], false, true⟩ "client1" "id1" (1/2) "osc" 100).1
      "id1").continuous_tasks.map Prod.fst := by
  refine ⟨fun s source new_id interval format now hnd hinv =>
      handle_preserves_inv s source new_id interval format now hnd hinv,
    fun s tid hnd => stop_task_removes s tid hnd,
    fun s tid hmem hempty => stop_task_flag s tid hmem hempty,
    ?_, ?_, ?_, ?_, ?_⟩ <;>
    norm_num [active_monitor_tasks, handle_start_monitor, stop_existing,
      stop_encoder_thread, record_new_task, stop_continuous_task, isActiveFor,
      isEncoderRunning] <;>
    simp +decide

/-- Witness for C3 at the empty controller state. -/
theorem claim_C3_witness :
    at_most_one_per_source
      (handle_start_monitor ⟨[], false, true⟩ "client1" "id1" (1/2) "osc" 0).1 ∧
    "id9" ∉ (stop_continuous_task ⟨[], false, true⟩ "id9").continuous_tasks.map
      Prod.fst := by
  have h := claim_C3_monitor_singleton
  exact ⟨h.1 ⟨[], false, true⟩ "client1" "id1" (1/2) "osc" 0 (by simp)
      (fun src => by simp),
    h.2.1 ⟨[], false, true⟩ "id9" (by simp)⟩

/-- C5: a data update skips the broadcast to a running task with a
source exactly when the fingerprint matches the last one sent to that
task and less than interval/2 seconds have elapsed since that send; in
the concrete scenario with interval 0.5s, two identical samples 0.1s
apart produce exactly one broadcast to the task. -/
theorem claim_C5_dedup_broadcast :
    (∀ info fp now, info.running = true → info.source ≠ "" →
      (data_update_decision info fp now = false ↔
        (info.last_data = some fp ∧
          now - info.last_sent_time < info.interval / 2))) ∧
    (on_encoder_data_update
      ⟨[("t1", ⟨"encoder_monitor", 1/2, "osc", true, 0, "client1", none, 0⟩)],
        true, true⟩ (90, 5, 2) 100).2 = ["t1"] ∧
    (on_encoder_data_update
      (on_encoder_data_update
        ⟨[("t1", ⟨"encoder_monitor", 1/2, "osc", true, 0, "client1", none, 0⟩)],
          true, true⟩ (90, 5, 2) 100).1 (90, 5, 2) (100 + 1/10)).2 = [] := by
  refine ⟨?_, ?_, ?_⟩
  · intro info fp now h1 h2
    simp only [data_update_decision, h1, not_true, if_false, h2]
    split_ifs with hcond
    · simpa using hcond
    · simpa using hcond
  · norm_num [on_encoder_data_update, data_update_decision]
    all_goals simp +decide
    all_goals norm_num
  · norm_num [on_encoder_data_update, data_update_decision]
    all_goals simp +decide
    all_goals norm_num

/-- Witness for C5 at a concrete task whose last send matches the
fingerprint 0.1s earlier. -/
theorem claim_C5_witness :
    data_update_decision
      ⟨"encoder_monitor", 1/2, "osc", true, 0, "client1", some (90, 5, 2), 100⟩
      (90, 5, 2) (100 + 1/10) = false := by
  have h := (claim_C5_dedup_broadcast.1
    ⟨"encoder_monitor", 1/2, "osc", true, 0, "client1", some (90, 5, 2), 100⟩
    (90, 5, 2) (100 + 1/10) rfl (by simp)).mpr
  exact h ⟨rfl, by norm_num⟩

end Controller
